import Mathlib

/-!
Verification of the dual-encoding struct code synthesizer of `slicec-cs`
(`src/tools/slicec-cs/src/generators/struct_generator.rs`) and the doc-comment
summary helper (`src/tools/slicec-cs/src/slicec_ext/comment_ext.rs`).

The generator core is embedded shallowly: the merger `generate_encoding_blocks`
and the assembler `generate_struct` are translated from the Rust source; the
collaborators that live outside those two files (the `slicec` crate's
`CodeBlock`, the per-encoding field synthesizers `encode_fields` /
`decode_fields`, and the builder facility) are modelled from the spec, which
treats them as external mechanical text assembly.  Both `unreachable!` arms of
the merger become `Except.error`.
-/

namespace SlicecCs

/-- The two Slice encodings (`slicec::grammar::Encoding`, outside src/): the
older `Slice1` and the newer, tag-capable `Slice2`. -/
inductive Encoding where
  | Slice1
  | Slice2
  deriving DecidableEq, Repr

/-- Modelled from the spec: `slicec::code_block::CodeBlock` (outside src/) is an
opaque, comparable, concatenable sequence of emitted statements; two blocks are
equal iff their rendered text is identical.  We model a block by its rendered
text. -/
structure CodeBlock where
  text : String
  deriving DecidableEq, Repr

/-- Modelled from the spec: rendering a block (`Display` / `to_string`) yields
its text. -/
def CodeBlock.to_string (b : CodeBlock) : String := b.text

/-- Modelled from the spec: a block is empty when it carries no emitted
statements (`CodeBlock::is_empty`). -/
def CodeBlock.is_empty (b : CodeBlock) : Bool := b.text == ""

/-- Modelled from the spec: `CodeBlock::indent` prefixes every line of the block
with four spaces so it can stand as a nested branch body. -/
def CodeBlock.indent (b : CodeBlock) : CodeBlock :=
  CodeBlock.mk ("    " ++ String.intercalate "\n    " (b.text.splitOn "\n"))

/-- Modelled from the spec: `writeln!(block, line)` appends the line and a
newline at the end of the block. -/
def CodeBlock.writeln (b : CodeBlock) (line : String) : CodeBlock :=
  CodeBlock.mk (b.text ++ line ++ "\n")

/-- Modelled from the spec: `CodeBlock::default()` is the empty block. -/
def CodeBlock.empty : CodeBlock := CodeBlock.mk ""

/-- Read-only view of one struct member: `slicec::grammar::Field` together with
the rendered views the generator asks of it (`field_name`, `parameter_name`,
`field_type_string`, `field_declaration`, `formatted_doc_comment_summary`).
Those renderers live outside src/, so each is carried as precomputed text. -/
structure Field where
  field_name : String
  parameter_name : String
  type_string : String
  declaration : String
  doc_summary : Option String
  deriving DecidableEq, Repr

/-- Read-only view of a struct definition (`slicec::grammar::Struct` together
with the rendered views `escape_identifier`, `access_modifier`,
`has_attribute::<CsReadonly>`, `formatted_doc_comment_summary`, plus its fields,
`is_compact` flag and precomputed `supported_encodings`). -/
structure Struct where
  escaped_identifier : String
  access : String
  cs_readonly : Bool
  summary : Option String
  fields : List Field
  is_compact : Bool
  supported_encodings : List Encoding
  deriving DecidableEq, Repr

/-- The local `block_source_fn` binding of `generate_encoding_blocks`
(struct_generator.rs lines 127-130): selects `encode_fields` or
`decode_fields`.  Those two per-encoding synthesizers live outside src/, so the
merger is parameterized by them. -/
def block_source_fn (encode_fields decode_fields : List Field → Encoding → CodeBlock)
    (is_encode : Bool) : List Field → Encoding → CodeBlock :=
  match is_encode with
  | true => encode_fields
  | false => decode_fields

/-- `generate_encoding_blocks` (struct_generator.rs lines 126-181): decide
whether to emit one shared block, a single-armed guard, or a full two-armed
branch on the runtime encoding.  The two `unreachable!` arms are embedded as
`Except.error` carrying the source's panic message. -/
def generate_encoding_blocks (encode_fields decode_fields : List Field → Encoding → CodeBlock)
    (fields : List Field) (supported_encodings : List Encoding) (is_encode : Bool) :
    Except String CodeBlock :=
  let bsf := block_source_fn encode_fields decode_fields is_encode
  match supported_encodings with
  | [] => Except.error "No supported encodings"
  | [encoding] => Except.ok (bsf fields encoding)
  | _ :: _ :: _ =>
    let slice1_block := bsf fields Encoding.Slice1
    let slice2_block := bsf fields Encoding.Slice2
    if slice1_block.to_string = slice2_block.to_string then
      Except.ok slice2_block
    else
      let encoding_variable : String :=
        match is_encode with
        | true => "encoder.Encoding"
        | false => "decoder.Encoding"
      if slice1_block.is_empty && !slice2_block.is_empty then
        Except.ok (CodeBlock.mk
          ("if (" ++ encoding_variable ++ " != SliceEncoding.Slice1) // Slice2 only\n\x7b\n"
            ++ slice2_block.indent.text ++ "\n\x7d\n"))
      else if !slice1_block.is_empty && !slice2_block.is_empty then
        Except.ok (CodeBlock.mk
          ("if (" ++ encoding_variable ++ " == SliceEncoding.Slice1)\n\x7b\n"
            ++ slice1_block.indent.text ++ "\n\x7d\nelse // Slice2\n\x7b\n"
            ++ slice2_block.indent.text ++ "\n\x7d\n"))
      else
        Except.error
          "it is not possible to have an empty Slice2 encoding block with a non empty Slice1 encoding block"

/-- Modelled from the spec: one parameter recorded by the builder facility
(the Declaration Assembler collaborator, outside src/). -/
structure Param where
  param_type : String
  name : String
  default_value : Option String
  doc : Option String
  deriving DecidableEq, Repr

/-- Modelled from the spec: the `FunctionBuilder` collaborator accumulates a
function's declaration pieces — access modifier, return type, name, doc
comments, parameters in order, and a body block. -/
structure FunctionBuilder where
  access : String
  return_type : String
  name : String
  comments : List (String × String)
  params : List Param
  body : CodeBlock
  deriving DecidableEq, Repr

/-- Modelled from the spec: `FunctionBuilder::new` starts with no comments,
parameters or body. -/
def FunctionBuilder.new (access return_type name : String) : FunctionBuilder :=
  FunctionBuilder.mk access return_type name [] [] CodeBlock.empty

/-- Modelled from the spec: `add_comment` records one doc-comment tag. -/
def FunctionBuilder.add_comment (b : FunctionBuilder) (tag text : String) : FunctionBuilder :=
  { b with comments := b.comments ++ [(tag, text)] }

/-- Modelled from the spec: `add_parameter` appends one parameter. -/
def FunctionBuilder.add_parameter (b : FunctionBuilder) (param_type name : String)
    (default_value : Option String) (doc : Option String) : FunctionBuilder :=
  { b with params := b.params ++ [Param.mk param_type name default_value doc] }

/-- Modelled from the spec: `set_body` installs the function body block. -/
def FunctionBuilder.set_body (b : FunctionBuilder) (body : CodeBlock) : FunctionBuilder :=
  { b with body := body }

/-- The main-constructor assembly of `generate_struct` (struct_generator.rs
lines 44-70): one parameter added per field in declared order, then a body of
one `this.<field> = <parameter>;` line per field in the same order. -/
def main_constructor (struct_def : Struct) : FunctionBuilder :=
  let builder := FunctionBuilder.new struct_def.access "" struct_def.escaped_identifier
  let builder := builder.add_comment "summary"
    ("Constructs a new instance of <see cref=\"" ++ struct_def.escaped_identifier ++ "\" />.")
  let builder := struct_def.fields.foldl
    (fun b field => b.add_parameter field.type_string field.parameter_name none field.doc_summary)
    builder
  builder.set_body
    (struct_def.fields.foldl
      (fun code field =>
        code.writeln ("this." ++ field.field_name ++ " = " ++ field.parameter_name ++ ";"))
      CodeBlock.empty)

/-- Modelled from the spec: the content `generate_struct` hands to the external
`ContainerBuilder` (outside src/), recorded structurally — declaration text,
identifier, summary comment, joined field declarations, the three functions. -/
structure GeneratedStruct where
  declaration : String
  identifier : String
  summary : Option String
  field_declarations : String
  main_ctor : FunctionBuilder
  decode_ctor : FunctionBuilder
  encode_method : FunctionBuilder
  deriving DecidableEq, Repr

/-- The declaration content `generate_struct` hands to the `ContainerBuilder`
once both bodies exist: the record pieces of struct_generator.rs lines 20-121,
with the decode constructor and encode method built around the given bodies. -/
def assemble (struct_def : Struct) (decode_body encode_body : CodeBlock) : GeneratedStruct :=
  { declaration := String.intercalate " "
      ((if struct_def.cs_readonly then [struct_def.access, "readonly"] else [struct_def.access])
        ++ ["partial", "record", "struct"])
    identifier := struct_def.escaped_identifier
    summary := struct_def.summary
    field_declarations :=
      String.intercalate "\n\n" (struct_def.fields.map (fun m => m.declaration))
    main_ctor := main_constructor struct_def
    decode_ctor :=
      (((FunctionBuilder.new struct_def.access "" struct_def.escaped_identifier).add_comment
          "summary"
          ("Constructs a new instance of <see cref=\"" ++ struct_def.escaped_identifier
            ++ "\" /> and decodes its fields from a Slice decoder.")).add_parameter
        "ref SliceDecoder" "decoder" none (some "The Slice decoder.")).set_body decode_body
    encode_method :=
      (((FunctionBuilder.new (struct_def.access ++ " readonly") "void" "Encode").add_comment
          "summary" "Encodes the fields of this struct with a Slice encoder.").add_parameter
        "ref SliceEncoder" "encoder" none (some "The Slice encoder.")).set_body encode_body }

/-- `generate_struct` (struct_generator.rs lines 15-124).  The declaration
pieces are assembled as in the source; the decode and encode bodies come from
`generate_encoding_blocks`, each followed by its framing instruction when the
struct is not compact.  A merger panic aborts the whole generation, embedded as
`Except.error`. -/
def generate_struct (encode_fields decode_fields : List Field → Encoding → CodeBlock)
    (struct_def : Struct) : Except String GeneratedStruct :=
  match generate_encoding_blocks encode_fields decode_fields struct_def.fields
      struct_def.supported_encodings false with
  | Except.error e => Except.error e
  | Except.ok decode_block =>
    let decode_body :=
      if !struct_def.is_compact then decode_block.writeln "decoder.SkipTagged();"
      else decode_block
    match generate_encoding_blocks encode_fields decode_fields struct_def.fields
        struct_def.supported_encodings true with
    | Except.error e => Except.error e
    | Except.ok encode_block =>
      let encode_body :=
        if !struct_def.is_compact then
          encode_block.writeln "encoder.EncodeVarInt32(Slice2Definitions.TagEndMarker);"
        else encode_block
      Except.ok (assemble struct_def decode_body encode_body)

/-- Modelled from the spec: the Declaration Assembler renders a parameter
list by plain concatenation. -/
def render_params (params : List Param) : String :=
  String.intercalate ", " (params.map (fun p => p.param_type ++ " " ++ p.name))

/-- Modelled from the spec: the Declaration Assembler renders one function —
mechanical text assembly. -/
def render_function (f : FunctionBuilder) : String :=
  f.access ++ " " ++ f.return_type ++ " " ++ f.name ++ "(" ++ render_params f.params
    ++ ")\n\x7b\n" ++ f.body.indent.text ++ "\n\x7d\n"

/-- Modelled from the spec: the Declaration Assembler renders the whole struct
declaration by concatenating its pieces in a fixed order. -/
def render_struct (g : GeneratedStruct) : String :=
  g.declaration ++ " " ++ g.identifier ++ "\n\x7b\n"
    ++ g.field_declarations ++ "\n\n"
    ++ render_function g.main_ctor ++ "\n"
    ++ render_function g.decode_ctor ++ "\n"
    ++ render_function g.encode_method ++ "\x7d\n"

/-- Claim C7: an empty supported-encodings set is a fatal internal invariant
violation — `generate_encoding_blocks` aborts with the source's panic message
and returns no block. -/
theorem empty_encoding_set_fatal
    (encode_fields decode_fields : List Field → Encoding → CodeBlock)
    (fields : List Field) (is_encode : Bool) :
    generate_encoding_blocks encode_fields decode_fields fields [] is_encode =
      Except.error "No supported encodings" := rfl

/-- Claim C5: with exactly one supported encoding, `generate_encoding_blocks`
returns exactly the block the selected synthesizer produced for that encoding,
unchanged, with no branching text added. -/
theorem single_encoding_invariance
    (encode_fields decode_fields : List Field → Encoding → CodeBlock)
    (fields : List Field) (encoding : Encoding) (is_encode : Bool) :
    generate_encoding_blocks encode_fields decode_fields fields [encoding] is_encode =
      Except.ok (block_source_fn encode_fields decode_fields is_encode fields encoding) := rfl

/-- Claim C3: when the Slice1 and Slice2 blocks render to identical text, the
merge returns the Slice2 block itself — one of the two input blocks, unchanged,
so no conditional or branch text is added. -/
theorem collapse_property
    (encode_fields decode_fields : List Field → Encoding → CodeBlock)
    (fields : List Field) (e1 e2 : Encoding) (rest : List Encoding) (is_encode : Bool)
    (heq : (block_source_fn encode_fields decode_fields is_encode fields Encoding.Slice1).to_string =
           (block_source_fn encode_fields decode_fields is_encode fields Encoding.Slice2).to_string) :
    generate_encoding_blocks encode_fields decode_fields fields (e1 :: e2 :: rest) is_encode =
      Except.ok (block_source_fn encode_fields decode_fields is_encode fields Encoding.Slice2) := by
  simp [generate_encoding_blocks, heq]

/-- Witness for `collapse_property` at a concrete synthesizer whose two blocks
render identically. -/
def const_blocks (s1 s2 : String) : List Field → Encoding → CodeBlock :=
  fun _ e =>
    match e with
    | Encoding.Slice1 => CodeBlock.mk s1
    | Encoding.Slice2 => CodeBlock.mk s2

theorem collapse_property_witness :
    (block_source_fn (const_blocks "A;\n" "A;\n") (const_blocks "" "") true [] Encoding.Slice1).to_string =
      (block_source_fn (const_blocks "A;\n" "A;\n") (const_blocks "" "") true [] Encoding.Slice2).to_string ∧
    generate_encoding_blocks (const_blocks "A;\n" "A;\n") (const_blocks "" "") []
        [Encoding.Slice1, Encoding.Slice2] true =
      Except.ok (block_source_fn (const_blocks "A;\n" "A;\n") (const_blocks "" "") true [] Encoding.Slice2) :=
  ⟨rfl, collapse_property (const_blocks "A;\n" "A;\n") (const_blocks "" "")
    [] Encoding.Slice1 Encoding.Slice2 [] true rfl⟩

/-- Claim C1: a non-empty Slice1 block together with an empty Slice2 block is
the impossible combination — the merge aborts with the source's
internal-consistency panic message and never returns an emitted block. -/
theorem fatal_case_detection
    (encode_fields decode_fields : List Field → Encoding → CodeBlock)
    (fields : List Field) (e1 e2 : Encoding) (rest : List Encoding) (is_encode : Bool)
    (h1 : (block_source_fn encode_fields decode_fields is_encode fields Encoding.Slice1).is_empty = false)
    (h2 : (block_source_fn encode_fields decode_fields is_encode fields Encoding.Slice2).is_empty = true) :
    generate_encoding_blocks encode_fields decode_fields fields (e1 :: e2 :: rest) is_encode =
      Except.error
        "it is not possible to have an empty Slice2 encoding block with a non empty Slice1 encoding block" := by
  have h1' : (block_source_fn encode_fields decode_fields is_encode fields Encoding.Slice1).text ≠ "" := by
    simpa [CodeBlock.is_empty] using h1
  have h2' : (block_source_fn encode_fields decode_fields is_encode fields Encoding.Slice2).text = "" := by
    simpa [CodeBlock.is_empty] using h2
  have hne : (block_source_fn encode_fields decode_fields is_encode fields Encoding.Slice1).to_string ≠
      (block_source_fn encode_fields decode_fields is_encode fields Encoding.Slice2).to_string := by
    simpa [CodeBlock.to_string, h2'] using h1'
  simp [generate_encoding_blocks, hne, h1, h2]

theorem fatal_case_detection_witness :
    (block_source_fn (const_blocks "A;\n" "") (const_blocks "A;\n" "") true [] Encoding.Slice1).is_empty = false ∧
    (block_source_fn (const_blocks "A;\n" "") (const_blocks "A;\n" "") true [] Encoding.Slice2).is_empty = true ∧
    generate_encoding_blocks (const_blocks "A;\n" "") (const_blocks "A;\n" "") []
        [Encoding.Slice1, Encoding.Slice2] true =
      Except.error
        "it is not possible to have an empty Slice2 encoding block with a non empty Slice1 encoding block" :=
  ⟨by decide, by decide,
    fatal_case_detection (const_blocks "A;\n" "") (const_blocks "A;\n" "")
      [] Encoding.Slice1 Encoding.Slice2 [] true (by decide) (by decide)⟩

/-- Claim C4: an empty Slice1 block with a non-empty Slice2 block merges into the
single-armed guard — the Slice2 block, indented, wrapped in one
`if (… != SliceEncoding.Slice1)` arm with no `else` branch. -/
theorem guard_minimality
    (encode_fields decode_fields : List Field → Encoding → CodeBlock)
    (fields : List Field) (e1 e2 : Encoding) (rest : List Encoding) (is_encode : Bool)
    (h1 : (block_source_fn encode_fields decode_fields is_encode fields Encoding.Slice1).is_empty = true)
    (h2 : (block_source_fn encode_fields decode_fields is_encode fields Encoding.Slice2).is_empty = false) :
    generate_encoding_blocks encode_fields decode_fields fields (e1 :: e2 :: rest) is_encode =
      Except.ok (CodeBlock.mk
        ("if (" ++ (match is_encode with | true => "encoder.Encoding" | false => "decoder.Encoding")
          ++ " != SliceEncoding.Slice1) // Slice2 only\n\x7b\n"
          ++ (block_source_fn encode_fields decode_fields is_encode fields Encoding.Slice2).indent.text
          ++ "\n\x7d\n")) := by
  have h1' : (block_source_fn encode_fields decode_fields is_encode fields Encoding.Slice1).text = "" := by
    simpa [CodeBlock.is_empty] using h1
  have h2' : (block_source_fn encode_fields decode_fields is_encode fields Encoding.Slice2).text ≠ "" := by
    simpa [CodeBlock.is_empty] using h2
  have hne : (block_source_fn encode_fields decode_fields is_encode fields Encoding.Slice1).to_string ≠
      (block_source_fn encode_fields decode_fields is_encode fields Encoding.Slice2).to_string := by
    simp [CodeBlock.to_string, h1']
    exact fun h => h2' h.symm
  cases is_encode <;> simp_all [generate_encoding_blocks]

theorem guard_minimality_witness :
    (block_source_fn (const_blocks "" "B;\n") (const_blocks "" "B;\n") false [] Encoding.Slice1).is_empty = true ∧
    (block_source_fn (const_blocks "" "B;\n") (const_blocks "" "B;\n") false [] Encoding.Slice2).is_empty = false ∧
    generate_encoding_blocks (const_blocks "" "B;\n") (const_blocks "" "B;\n") []
        [Encoding.Slice1, Encoding.Slice2] false =
      Except.ok (CodeBlock.mk
        ("if (decoder.Encoding != SliceEncoding.Slice1) // Slice2 only\n\x7b\n"
          ++ (CodeBlock.mk "B;\n").indent.text ++ "\n\x7d\n")) :=
  ⟨by decide, by decide,
    guard_minimality (const_blocks "" "B;\n") (const_blocks "" "B;\n")
      [] Encoding.Slice1 Encoding.Slice2 [] false (by decide) (by decide)⟩

/-- Claim C2: two non-empty, textually unequal blocks merge into a full
two-armed branch on the runtime encoding: an `if (… == SliceEncoding.Slice1)`
arm whose body is the Slice1 block indented, an `else` arm whose body is the
Slice2 block indented, and nothing else. -/
theorem exhaustive_branch
    (encode_fields decode_fields : List Field → Encoding → CodeBlock)
    (fields : List Field) (e1 e2 : Encoding) (rest : List Encoding) (is_encode : Bool)
    (h1 : (block_source_fn encode_fields decode_fields is_encode fields Encoding.Slice1).is_empty = false)
    (h2 : (block_source_fn encode_fields decode_fields is_encode fields Encoding.Slice2).is_empty = false)
    (hne : (block_source_fn encode_fields decode_fields is_encode fields Encoding.Slice1).to_string ≠
           (block_source_fn encode_fields decode_fields is_encode fields Encoding.Slice2).to_string) :
    generate_encoding_blocks encode_fields decode_fields fields (e1 :: e2 :: rest) is_encode =
      Except.ok (CodeBlock.mk
        ("if (" ++ (match is_encode with | true => "encoder.Encoding" | false => "decoder.Encoding")
          ++ " == SliceEncoding.Slice1)\n\x7b\n"
          ++ (block_source_fn encode_fields decode_fields is_encode fields Encoding.Slice1).indent.text
          ++ "\n\x7d\nelse // Slice2\n\x7b\n"
          ++ (block_source_fn encode_fields decode_fields is_encode fields Encoding.Slice2).indent.text
          ++ "\n\x7d\n")) := by
  cases is_encode <;> simp_all [generate_encoding_blocks]

theorem exhaustive_branch_witness :
    (block_source_fn (const_blocks "A;\n" "B;\n") (const_blocks "A;\n" "B;\n") true [] Encoding.Slice1).is_empty = false ∧
    (block_source_fn (const_blocks "A;\n" "B;\n") (const_blocks "A;\n" "B;\n") true [] Encoding.Slice2).is_empty = false ∧
    (block_source_fn (const_blocks "A;\n" "B;\n") (const_blocks "A;\n" "B;\n") true [] Encoding.Slice1).to_string ≠
      (block_source_fn (const_blocks "A;\n" "B;\n") (const_blocks "A;\n" "B;\n") true [] Encoding.Slice2).to_string ∧
    generate_encoding_blocks (const_blocks "A;\n" "B;\n") (const_blocks "A;\n" "B;\n") []
        [Encoding.Slice1, Encoding.Slice2] true =
      Except.ok (CodeBlock.mk
        ("if (encoder.Encoding == SliceEncoding.Slice1)\n\x7b\n"
          ++ (CodeBlock.mk "A;\n").indent.text ++ "\n\x7d\nelse // Slice2\n\x7b\n"
          ++ (CodeBlock.mk "B;\n").indent.text ++ "\n\x7d\n")) :=
  ⟨by decide, by decide, by decide,
    exhaustive_branch (const_blocks "A;\n" "B;\n") (const_blocks "A;\n" "B;\n")
      [] Encoding.Slice1 Encoding.Slice2 [] true (by decide) (by decide) (by decide)⟩

/-- A sample field used to instantiate the assembly theorems. -/
def sample_field : Field :=
  Field.mk "Name" "name" "string" "public string Name;" none

/-- A sample non-compact struct supporting only Slice2. -/
def sample_struct : Struct :=
  Struct.mk "S" "public" false none [sample_field] false [Encoding.Slice2]

/-- Claim C6: whenever the merger succeeds, the non-compact decode body is the
merged block with exactly the tag-skip line appended at its end, the
non-compact encode body is the merged block with exactly the end-of-tags
marker line appended at its end, and a compact struct gets neither — in every
case independent of which merge branch produced the block. -/
theorem framing_placement
    (encode_fields decode_fields : List Field → Encoding → CodeBlock)
    (struct_def : Struct) (decode_block encode_block : CodeBlock)
    (hdec : generate_encoding_blocks encode_fields decode_fields struct_def.fields
      struct_def.supported_encodings false = Except.ok decode_block)
    (henc : generate_encoding_blocks encode_fields decode_fields struct_def.fields
      struct_def.supported_encodings true = Except.ok encode_block) :
    ∃ g, generate_struct encode_fields decode_fields struct_def = Except.ok g ∧
      g.decode_ctor.body.text =
        decode_block.text ++ (if struct_def.is_compact then "" else "decoder.SkipTagged();\n") ∧
      g.encode_method.body.text =
        encode_block.text ++
          (if struct_def.is_compact then ""
           else "encoder.EncodeVarInt32(Slice2Definitions.TagEndMarker);\n") := by
  have hskip : ("decoder.SkipTagged();" ++ "\n" : String) = "decoder.SkipTagged();\n" := rfl
  have hmark : ("encoder.EncodeVarInt32(Slice2Definitions.TagEndMarker);" ++ "\n" : String) =
    "encoder.EncodeVarInt32(Slice2Definitions.TagEndMarker);\n" := rfl
  refine ⟨assemble struct_def
      (if !struct_def.is_compact then decode_block.writeln "decoder.SkipTagged();"
       else decode_block)
      (if !struct_def.is_compact then
          encode_block.writeln "encoder.EncodeVarInt32(Slice2Definitions.TagEndMarker);"
        else encode_block), ?_, ?_, ?_⟩
  · simp only [generate_struct, hdec, henc]
  · cases h : struct_def.is_compact <;>
      simp [assemble, FunctionBuilder.set_body, h, CodeBlock.writeln,
        String.append_assoc, String.append_empty, hskip]
  · cases h : struct_def.is_compact <;>
      simp [assemble, FunctionBuilder.set_body, h, CodeBlock.writeln,
        String.append_assoc, String.append_empty, hmark]

theorem framing_placement_witness :
    generate_encoding_blocks (const_blocks "" "E;\n") (const_blocks "" "D;\n") sample_struct.fields
      sample_struct.supported_encodings false = Except.ok (CodeBlock.mk "D;\n") ∧
    generate_encoding_blocks (const_blocks "" "E;\n") (const_blocks "" "D;\n") sample_struct.fields
      sample_struct.supported_encodings true = Except.ok (CodeBlock.mk "E;\n") ∧
    ∃ g, generate_struct (const_blocks "" "E;\n") (const_blocks "" "D;\n") sample_struct = Except.ok g ∧
      g.decode_ctor.body.text =
        (CodeBlock.mk "D;\n").text ++ (if sample_struct.is_compact then "" else "decoder.SkipTagged();\n") ∧
      g.encode_method.body.text =
        (CodeBlock.mk "E;\n").text ++
          (if sample_struct.is_compact then ""
           else "encoder.EncodeVarInt32(Slice2Definitions.TagEndMarker);\n") :=
  ⟨rfl, rfl,
    framing_placement (const_blocks "" "E;\n") (const_blocks "" "D;\n") sample_struct
      (CodeBlock.mk "D;\n") (CodeBlock.mk "E;\n") rfl rfl⟩

/-- Claim C8: generation is deterministic — the same schema (and the same
per-encoding synthesizers) always renders to byte-identical output text. -/
theorem generation_deterministic
    (encode_fields decode_fields : List Field → Encoding → CodeBlock)
    (s1 s2 : Struct) (h : s1 = s2) :
    (generate_struct encode_fields decode_fields s1).map render_struct =
      (generate_struct encode_fields decode_fields s2).map render_struct := by
  rw [h]

theorem generation_deterministic_witness :
    sample_struct = sample_struct ∧
    (generate_struct (const_blocks "" "E;\n") (const_blocks "" "D;\n") sample_struct).map render_struct =
      (generate_struct (const_blocks "" "E;\n") (const_blocks "" "D;\n") sample_struct).map render_struct :=
  ⟨rfl, generation_deterministic (const_blocks "" "E;\n") (const_blocks "" "D;\n")
    sample_struct sample_struct rfl⟩

theorem foldl_add_parameter_params (fields : List Field) (b : FunctionBuilder) :
    (fields.foldl
      (fun b field => b.add_parameter field.type_string field.parameter_name none field.doc_summary)
      b).params =
      b.params ++ fields.map (fun f => Param.mk f.type_string f.parameter_name none f.doc_summary) := by
  induction fields generalizing b with
  | nil => simp
  | cons f fs ih =>
    rw [List.foldl_cons, ih]
    simp [FunctionBuilder.add_parameter]

theorem join_cons (s : String) (l : List String) :
    String.join (s :: l) = s ++ String.join l := by
  cases s with
  | mk d =>
    simp only [String.join_eq, List.map_cons, List.flatten_cons]
    rfl

theorem foldl_writeln_text (fields : List Field) (c : CodeBlock) :
    (fields.foldl
      (fun code field =>
        code.writeln ("this." ++ field.field_name ++ " = " ++ field.parameter_name ++ ";"))
      c).text =
      c.text ++ String.join (fields.map
        (fun f => "this." ++ f.field_name ++ " = " ++ f.parameter_name ++ ";\n")) := by
  induction fields generalizing c with
  | nil => simp [String.join, String.append_empty]
  | cons f fs ih =>
    rw [List.foldl_cons, ih]
    have hsemi : ((";" : String) ++ "\n") = ";\n" := rfl
    simp [CodeBlock.writeln, join_cons, String.append_assoc, hsemi]

/-- Claim C9: the generated main constructor has exactly one parameter per
field, in declared field order (type, name and doc summary taken from the
field), and its body is exactly one `this.<field-name> = <parameter-name>;`
assignment line per field, in the same declared order. -/
theorem main_constructor_shape (struct_def : Struct) :
    (main_constructor struct_def).params =
      struct_def.fields.map (fun f => Param.mk f.type_string f.parameter_name none f.doc_summary) ∧
    (main_constructor struct_def).body.text =
      String.join (struct_def.fields.map
        (fun f => "this." ++ f.field_name ++ " = " ++ f.parameter_name ++ ";\n")) := by
  constructor
  · simp [main_constructor, FunctionBuilder.set_body, foldl_add_parameter_params,
      FunctionBuilder.add_comment, FunctionBuilder.new]
  · simp [main_constructor, FunctionBuilder.set_body, foldl_writeln_text, CodeBlock.empty,
      String.empty_append]

/-- One component of a doc-comment message, as the source's
`format_message(&overview.message, |link| …)` consumes it (the `slicec` message
model, outside src/): literal text or a link to an entity identifier. -/
inductive MessageComponent where
  | text (s : String)
  | link (identifier : String)
  deriving DecidableEq, Repr

/-- The overview section of a doc comment: its message. -/
structure Overview where
  message : List MessageComponent
  deriving DecidableEq, Repr

/-- A doc comment as `formatted_doc_comment_summary` reads it: an optional
overview section. -/
structure DocComment where
  overview : Option Overview
  deriving DecidableEq, Repr

/-- Modelled from the spec: `format_message` (a `slicec` utility, outside src/)
renders a message, applying the supplied formatter to each link component. -/
def format_message (message : List MessageComponent) (link_formatter : String → String) : String :=
  String.join (message.map (fun component =>
    match component with
    | MessageComponent.text s => s
    | MessageComponent.link identifier => link_formatter identifier))

/-- A commentable entity as `formatted_doc_comment_summary` sees it: its
optional doc comment, its namespace, and the external per-link renderer
`get_formatted_link` (identifier and namespace to C# tag). -/
structure Commentable where
  comment : Option DocComment
  ns : String
  get_formatted_link : String → String → String

/-- `formatted_doc_comment_summary` (comment_ext.rs lines 11-18). -/
def formatted_doc_comment_summary (entity : Commentable) : Option String :=
  entity.comment.bind (fun comment =>
    comment.overview.map (fun overview =>
      format_message overview.message
        (fun link => entity.get_formatted_link link entity.ns)))

/-- Claim C10: `formatted_doc_comment_summary` returns `none` exactly when the
entity has no doc comment or its doc comment has no overview; otherwise it
returns `some` of the overview message with links formatted through the
entity's link renderer. -/
theorem formatted_doc_comment_summary_spec (entity : Commentable) :
    (formatted_doc_comment_summary entity = none ↔
      entity.comment = none ∨ ∃ c, entity.comment = some c ∧ c.overview = none) ∧
    (∀ c overview, entity.comment = some c → c.overview = some overview →
      formatted_doc_comment_summary entity =
        some (format_message overview.message
          (fun link => entity.get_formatted_link link entity.ns))) := by
  constructor
  · cases hc : entity.comment with
    | none => simp [formatted_doc_comment_summary, hc]
    | some c =>
      cases ho : c.overview with
      | none => simp [formatted_doc_comment_summary, hc, ho]
      | some overview => simp [formatted_doc_comment_summary, hc, ho]
  · intro c overview hc ho
    simp [formatted_doc_comment_summary, hc, ho]

/-- A sample commentable entity with an overview mixing text and a link. -/
def sample_commentable : Commentable :=
  Commentable.mk
    (some (DocComment.mk (some (Overview.mk
      [MessageComponent.text "Hi ", MessageComponent.link "Foo"]))))
    "Ns"
    (fun link ns => "<see cref=\"" ++ ns ++ "." ++ link ++ "\" />")

theorem formatted_doc_comment_summary_spec_witness :
    sample_commentable.comment =
      some (DocComment.mk (some (Overview.mk
        [MessageComponent.text "Hi ", MessageComponent.link "Foo"]))) ∧
    formatted_doc_comment_summary sample_commentable = some "Hi <see cref=\"Ns.Foo\" />" :=
  ⟨rfl, by
    have h := (formatted_doc_comment_summary_spec sample_commentable).2
      (DocComment.mk (some (Overview.mk
        [MessageComponent.text "Hi ", MessageComponent.link "Foo"])))
      (Overview.mk [MessageComponent.text "Hi ", MessageComponent.link "Foo"]) rfl rfl
    rw [h]
    rfl⟩

end SlicecCs
